import Mathlib

/-!
Verification of the configuration-and-diagnostics subsystem of the
stix2-elevator tool (`stix2elevator/options.py`), as a shallow embedding.

Python values flowing through the option store are modelled by `PyVal`;
the process-global mutable state (`ALL_OPTIONS`, `MESSAGES_GENERATED`, the
log sinks) is modelled by explicit state passing over `GState`; Python code
that can raise is modelled in `Except String`, the error string recording
the exception that would be raised.
-/

set_option maxHeartbeats 1000000

namespace Elevator

/-- Dynamic Python values stored in option attributes. -/
inductive PyVal where
  | none
  | bool (b : Bool)
  | int (n : Int)
  | str (s : String)
  | strList (l : List String)
deriving DecidableEq, Repr

/-- Python truthiness of a `PyVal` (`None`, `False`, `0`, `""` and `[]` are falsy). -/
def truthy : PyVal → Bool
  | .none => false
  | .bool b => b
  | .int n => decide (n ≠ 0)
  | .str s => decide (s ≠ "")
  | .strList l => decide (l ≠ [])

/-- six.text_type (`str` in Python 3) applied to a value: its string form. -/
def text_type : PyVal → String
  | .none => "None"
  | .bool b => if b then "True" else "False"
  | .int n => toString n
  | .str s => s
  | .strList l => toString l

/-- Python substring test used by `x in s` when `s` is a string. -/
def strContainsSub (t m : String) : Bool :=
  (List.range (t.data.length + 1)).any (fun i => m.data.isPrefixOf (t.data.drop i))

/-- Python membership `m in v`. Raises `TypeError` when `v` is not a container
(in particular when `v` is `None`, which happens when an option that should
hold the enabled/disabled list is absent). -/
def pyIn (m : String) (v : PyVal) : Except String Bool :=
  match v with
  | .strList l => .ok (decide (m ∈ l))
  | .str t => .ok (strContainsSub t m)
  | .none => .error "TypeError: argument of type NoneType is not iterable"
  | .bool _ => .error "TypeError: argument of type bool is not iterable"
  | .int _ => .error "TypeError: argument of type int is not iterable"

/-- Python `str.split` with a one-character separator, on the character list:
`"".split(c)` is `[""]`, and empty fields between adjacent separators are kept. -/
def py_split_list (c : Char) : List Char → List (List Char)
  | [] => [[]]
  | x :: xs =>
    let r := py_split_list c xs
    if x = c then [] :: r
    else (x :: r.headD []) :: r.tail

/-- Python `str.split` with a one-character separator, on strings. -/
def py_split (c : Char) (s : String) : List String :=
  (py_split_list c s.data).map String.mk

/-- These codes are aligned with the elevator_log_messages spreadsheet
(the `CHECK_CODES` list of the source). -/
def CHECK_CODES : List Int :=
  [201, 202, 203, 204, 205, 206, 207, 208, 209, 210, 211,
   301, 302, 303, 304, 305, 306,
   401, 402, 403, 404, 405, 406, 407, 408, 409, 410, 411, 412, 413,
   414, 415, 416, 417, 418, 419, 420, 421, 422, 423, 424, 425, 426,
   427, 428,
   501, 502, 503, 504, 505, 506, 507, 508, 509, 510, 511, 512,
   601, 602, 603, 604, 605, 606, 607, 608, 609, 610, 611, 612, 613,
   614, 615, 616, 617, 618, 619, 620, 621, 622, 623, 624, 625,
   701, 702, 703, 704, 705, 706, 707, 708, 709, 710, 711, 712, 713,
   714, 715, 716, 717, 718, 719, 720,
   801, 802, 803, 804, 805, 806, 807, 808, 809, 810, 811, 812, 813,
   814, 815, 816,
   901, 902, 903, 904, 905]

/-- Python cross-type equality between a string and an integer: always false. -/
def pyEqStrInt (_x : String) (_c : Int) : Bool := false

/-- One token of a comma-split enable/disable string. The source computes
`CHECK_CODES[x] if x in CHECK_CODES else x`; `x` is a string and `CHECK_CODES`
holds integers, and a Python string never compares equal to an integer, so the
membership test is always false and the token passes through unchanged (the
indexing in the then-branch is unreachable). -/
def mapCheckCode (x : String) : String :=
  if CHECK_CODES.any (fun c => pyEqStrInt x c) then x else x

/-- The keyword parameters of `ElevatorOptions.__init__` (used when `cmd_args`
is `None`), typed as in the Python signature. -/
structure Kwargs where
  file_ : PyVal
  incidents : Bool
  no_squirrel_gaps : Bool
  infrastructure : Bool
  package_created_by_id : PyVal
  default_timestamp : PyVal
  validator_args : String
  enable : String
  disable : String
  silent : Bool
  message_log_directory : PyVal
  policy : String
  output_directory : PyVal
  log_level : String
  markings_allowed : String
deriving DecidableEq, Repr

/-- The defaults of the Python signature: `file_=None, incidents=False,
no_squirrel_gaps=False, infrastructure=False, package_created_by_id=None,
default_timestamp=None, validator_args="--strict-types", enable="",
disable="", silent=False, message_log_directory=None, policy="no_policy",
output_directory=None, log_level="INFO", markings_allowed=""`. -/
def defaultKwargs : Kwargs :=
  { file_ := .none
    incidents := false
    no_squirrel_gaps := false
    infrastructure := false
    package_created_by_id := .none
    default_timestamp := .none
    validator_args := "--strict-types"
    enable := ""
    disable := ""
    silent := false
    message_log_directory := .none
    policy := "no_policy"
    output_directory := .none
    log_level := "INFO"
    markings_allowed := "" }

/-- A parsed-arguments value (`argparse.Namespace`). `file_` and
`output_directory` are `Option`-wrapped because the source guards them with
`hasattr`: `Option.none` here means the attribute is absent. -/
structure Namespace where
  file_ : Option PyVal
  incidents : Bool
  no_squirrel_gaps : Bool
  infrastructure : Bool
  package_created_by_id : PyVal
  default_timestamp : PyVal
  validator_args : String
  enable : String
  disable : String
  silent : Bool
  policy : String
  message_log_directory : PyVal
  log_level : String
  markings_allowed : String
  output_directory : Option PyVal
deriving DecidableEq, Repr

/-- The attribute record of a constructed `ElevatorOptions` object. Attributes
hold dynamic Python values; `file_` and `output_directory` are `Option`-wrapped
because on the `cmd_args` path they are only set when present on the namespace
(`Option.none` means the attribute does not exist). `extra` models attributes
added later through `setattr` with a name outside the fixed field set. -/
structure ElevatorOptions where
  file_ : Option PyVal
  incidents : PyVal
  no_squirrel_gaps : PyVal
  infrastructure : PyVal
  package_created_by_id : PyVal
  default_timestamp : PyVal
  validator_args : PyVal
  enable : PyVal
  disable : PyVal
  silent : PyVal
  policy : PyVal
  message_log_directory : PyVal
  log_level : PyVal
  output_directory : Option PyVal
  markings_allowed : PyVal
  enabled : PyVal
  disabled : PyVal
  marking_container : PyVal
  extra : List (String × PyVal)
deriving DecidableEq, Repr

/-- The normalized `disabled` list: `if self.disable: split and map; else []`. -/
def derivedDisabled (disableS : String) : List String :=
  if disableS ≠ "" then (py_split ',' disableS).map mapCheckCode else []

/-- The normalized `enabled` list: `if self.enable: split and map;
else [text_type(x) for x in CHECK_CODES]` (all messages on by default). -/
def derivedEnabled (enableS : String) : List String :=
  if enableS ≠ "" then (py_split ',' enableS).map mapCheckCode
  else CHECK_CODES.map (fun x => text_type (.int x))

/-- The normalized `markings_allowed` value: the comma-split list when the
string is non-empty, otherwise the attribute keeps its original value. -/
def derivedMarkings (markingsV : PyVal) : PyVal :=
  if truthy markingsV then
    match markingsV with
    | .str s => .strList (py_split ',' s)
    | v => v
  else markingsV

/-- `ElevatorOptions.__init__`: copy the fields from the parsed-arguments
value when one is given, otherwise from the keyword parameters, then apply the
post-construction normalization of `disabled`, `enabled` and
`markings_allowed`, and initialize `marking_container` to `None`. -/
def ElevatorOptions.init (cmd_args : Option Namespace) (kw : Kwargs) : ElevatorOptions :=
  let enableS := match cmd_args with | some ns => ns.enable | Option.none => kw.enable
  let disableS := match cmd_args with | some ns => ns.disable | Option.none => kw.disable
  { file_ := (match cmd_args with | some ns => ns.file_ | Option.none => some kw.file_)
    incidents := .bool (match cmd_args with | some ns => ns.incidents | Option.none => kw.incidents)
    no_squirrel_gaps := .bool (match cmd_args with | some ns => ns.no_squirrel_gaps | Option.none => kw.no_squirrel_gaps)
    infrastructure := .bool (match cmd_args with | some ns => ns.infrastructure | Option.none => kw.infrastructure)
    package_created_by_id := (match cmd_args with | some ns => ns.package_created_by_id | Option.none => kw.package_created_by_id)
    default_timestamp := (match cmd_args with | some ns => ns.default_timestamp | Option.none => kw.default_timestamp)
    validator_args := .str (match cmd_args with | some ns => ns.validator_args | Option.none => kw.validator_args)
    enable := .str enableS
    disable := .str disableS
    silent := .bool (match cmd_args with | some ns => ns.silent | Option.none => kw.silent)
    policy := .str (match cmd_args with | some ns => ns.policy | Option.none => kw.policy)
    message_log_directory := (match cmd_args with | some ns => ns.message_log_directory | Option.none => kw.message_log_directory)
    log_level := .str (match cmd_args with | some ns => ns.log_level | Option.none => kw.log_level)
    output_directory := (match cmd_args with | some ns => ns.output_directory | Option.none => some kw.output_directory)
    markings_allowed := derivedMarkings (.str (match cmd_args with | some ns => ns.markings_allowed | Option.none => kw.markings_allowed))
    enabled := .strList (derivedEnabled enableS)
    disabled := .strList (derivedDisabled disableS)
    marking_container := .none
    extra := [] }

/-- `getattr` on an `ElevatorOptions` object; `Option.none` means the
attribute does not exist (`hasattr` false). -/
def getOptionAttr (o : ElevatorOptions) (name : String) : Option PyVal :=
  if name = "file_" then o.file_
  else if name = "incidents" then some o.incidents
  else if name = "no_squirrel_gaps" then some o.no_squirrel_gaps
  else if name = "infrastructure" then some o.infrastructure
  else if name = "package_created_by_id" then some o.package_created_by_id
  else if name = "default_timestamp" then some o.default_timestamp
  else if name = "validator_args" then some o.validator_args
  else if name = "enable" then some o.enable
  else if name = "disable" then some o.disable
  else if name = "silent" then some o.silent
  else if name = "policy" then some o.policy
  else if name = "message_log_directory" then some o.message_log_directory
  else if name = "log_level" then some o.log_level
  else if name = "output_directory" then o.output_directory
  else if name = "markings_allowed" then some o.markings_allowed
  else if name = "enabled" then some o.enabled
  else if name = "disabled" then some o.disabled
  else if name = "marking_container" then some o.marking_container
  else (o.extra.find? (fun p => decide (p.1 = name))).map (fun p => p.2)

/-- `setattr` on an `ElevatorOptions` object; an unrecognized name becomes a
dynamic attribute. -/
def setOptionAttr (o : ElevatorOptions) (name : String) (v : PyVal) : ElevatorOptions :=
  if name = "file_" then { o with file_ := some v }
  else if name = "incidents" then { o with incidents := v }
  else if name = "no_squirrel_gaps" then { o with no_squirrel_gaps := v }
  else if name = "infrastructure" then { o with infrastructure := v }
  else if name = "package_created_by_id" then { o with package_created_by_id := v }
  else if name = "default_timestamp" then { o with default_timestamp := v }
  else if name = "validator_args" then { o with validator_args := v }
  else if name = "enable" then { o with enable := v }
  else if name = "disable" then { o with disable := v }
  else if name = "silent" then { o with silent := v }
  else if name = "policy" then { o with policy := v }
  else if name = "message_log_directory" then { o with message_log_directory := v }
  else if name = "log_level" then { o with log_level := v }
  else if name = "output_directory" then { o with output_directory := some v }
  else if name = "markings_allowed" then { o with markings_allowed := v }
  else if name = "enabled" then { o with enabled := v }
  else if name = "disabled" then { o with disabled := v }
  else if name = "marking_container" then { o with marking_container := v }
  else { o with extra := (name, v) :: o.extra }

/-- Severity of a routed diagnostic message. -/
inductive Level where
  | info
  | warning
  | error
deriving DecidableEq, Repr

/-- One message written to the log sinks. -/
structure LogRecord where
  level : Level
  fmt : String
  ecode : PyVal
deriving DecidableEq, Repr

/-- The process-global mutable state of the module: `ALL_OPTIONS`,
`MESSAGES_GENERATED`, and the stream of messages written to the sinks. -/
structure GState where
  all_options : Option ElevatorOptions
  messages_generated : Bool
  output : List LogRecord
deriving DecidableEq, Repr

/-- The state at module load: `ALL_OPTIONS = None`, `MESSAGES_GENERATED = False`,
nothing written yet. -/
def initialState : GState :=
  { all_options := Option.none, messages_generated := false, output := [] }

/-- `get_option_value(option_name)`: the attribute value when `ALL_OPTIONS` is
set and has the attribute, `None` otherwise. Never fails. -/
def get_option_value (opts : Option ElevatorOptions) (option_name : String) : PyVal :=
  match opts with
  | some o => (getOptionAttr o option_name).getD .none
  | Option.none => .none

/-- `msg_id_enabled(msg_id)`: coerce the code to its string form; silent wins
unconditionally; otherwise when the disabled list is falsy, membership in the
enabled value decides, else absence from the disabled value decides. The
membership tests can raise when the consulted value is not a container. -/
def msg_id_enabled (opts : Option ElevatorOptions) (raw_msg_id : PyVal) : Except String Bool :=
  let msg_id := text_type raw_msg_id
  if truthy (get_option_value opts "silent") then .ok false
  else if !truthy (get_option_value opts "disabled") then
    pyIn msg_id (get_option_value opts "enabled")
  else
    match pyIn msg_id (get_option_value opts "disabled") with
    | .error e => .error e
    | .ok b => .ok (!b)

/-- Shared body of `info`, `warn` and `error`: when the gating decision is
enabled, the message is written to the sinks and `MESSAGES_GENERATED` is set;
when disabled, nothing happens; an exception from the gating check propagates. -/
def log_call (lvl : Level) (st : GState) (fmt : String) (ecode : PyVal) : Except String GState :=
  match msg_id_enabled st.all_options ecode with
  | .error e => .error e
  | .ok true => .ok { st with output := st.output ++ [{ level := lvl, fmt := fmt, ecode := ecode }],
                              messages_generated := true }
  | .ok false => .ok st

/-- `info(fmt, ecode, *args)`. -/
def info (st : GState) (fmt : String) (ecode : PyVal) : Except String GState :=
  log_call .info st fmt ecode

/-- `warn(fmt, ecode, *args)`. -/
def warn (st : GState) (fmt : String) (ecode : PyVal) : Except String GState :=
  log_call .warning st fmt ecode

/-- `error(fmt, ecode, *args)`. -/
def error (st : GState) (fmt : String) (ecode : PyVal) : Except String GState :=
  log_call .error st fmt ecode

/-- `initialize_options(elevator_args)`: a no-op when `ALL_OPTIONS` is already
set; otherwise construct the options (keyword parameters at their defaults)
and call `warn` for the two contradictory-configuration codes 209 and 211. -/
def initialize_options (st : GState) (elevator_args : Option Namespace) : Except String GState :=
  if st.all_options.isSome then .ok st
  else
    let o := ElevatorOptions.init elevator_args defaultKwargs
    let st1 : GState := { st with all_options := some o }
    match (if truthy o.silent && truthy o.message_log_directory then
             warn st1 "Both console and output log have disabled messages." (.int 209)
           else .ok st1) with
    | .error e => .error e
    | .ok st2 =>
      if truthy o.silent && decide (o.policy ≠ .str "no_policy") then
        warn st2 "silent option is not compatible with a policy" (.int 211)
      else .ok st2

/-- `set_option_value(option_name, option_value)`: mutate the attribute when
initialized; otherwise report through `error(..., 207)` — whose own gating
check runs against the uninitialized state. -/
def set_option_value (st : GState) (option_name : String) (option_value : PyVal) :
    Except String GState :=
  match st.all_options with
  | some o => .ok { st with all_options := some (setOptionAttr o option_name option_value) }
  | Option.none => error st "options not initialized" (.int 207)

/-- `os.path.split(p).1`: the part of the path after the last slash. -/
def os_path_basename (p : String) : String :=
  String.mk ((py_split_list '/' p.data).getLastD [])

/-- `os.path.join(a, b)` on POSIX for the shapes arising here: `b` wins when
absolute, otherwise a separator is inserted unless `a` is empty or already
ends with one. -/
def os_path_join (a b : String) : String :=
  if b.data.headD ' ' = '/' then b
  else if a = "" then b
  else if a.data.getLastD ' ' = '/' then a ++ b
  else a ++ "/" ++ b

/-- `os.path.abspath` on the already-absolute, already-normalized destination
paths arising here: the identity (the cwd-relative case is not exercised). -/
def os_path_abspath (p : String) : String := p

/-- Outcome of `setup_logger`: nothing when `ALL_OPTIONS` is falsy; the log
level applied with console-only logging when no message-log directory is set;
otherwise the level and the file sink destination that gets attached. -/
inductive SetupResult where
  | noOptions
  | consoleOnly (level : PyVal)
  | fileSink (level : PyVal) (destination : String)
deriving DecidableEq, Repr

/-- `setup_logger(package_id)`: derive the log file name from the input file
path when one is set (`os.path.split`, then the part before the first dot,
then `.log`), otherwise from element 1 of the package id split on `:` (which
raises `IndexError` for a colonless id), and join it with the configured
message-log directory. -/
def setup_logger (opts : Option ElevatorOptions) (package_id : String) :
    Except String SetupResult :=
  match opts with
  | Option.none => .ok .noOptions
  | some o =>
    let level := get_option_value (some o) "log_level"
    if !truthy (get_option_value (some o) "message_log_directory") then
      .ok (.consoleOnly level)
    else
      let output_directory := get_option_value (some o) "message_log_directory"
      let file_directory := get_option_value (some o) "file_"
      match ((if truthy file_directory then
               match file_directory with
               | .str f =>
                 .ok (String.mk ((py_split_list '.' (os_path_basename f).data).headD []) ++ ".log")
               | _ => .error "TypeError: os.path.split expects a string path"
             else
               match (py_split_list ':' package_id.data).get? 1 with
               | some seg => .ok (String.mk seg ++ ".log")
               | Option.none => .error "IndexError: list index out of range") :
             Except String String) with
      | .error e => .error e
      | .ok filename =>
        match output_directory with
        | .str d => .ok (.fileSink level (os_path_abspath (os_path_join d filename)))
        | _ => .error "TypeError: os.path.join expects a string path"

/-! ### Helper definitions for specification-side statements -/

/-- The attribute names used by the claim theorems: the list stored in
`disabled` (empty when the attribute is not a list). -/
def ElevatorOptions.disabledStrings (o : ElevatorOptions) : List String :=
  match o.disabled with
  | .strList l => l
  | _ => []

/-- The list stored in `enabled` (empty when the attribute is not a list). -/
def ElevatorOptions.enabledStrings (o : ElevatorOptions) : List String :=
  match o.enabled with
  | .strList l => l
  | _ => []

/-- Specification-side formulation: the part of a character list before the
first occurrence of `c`. -/
def prefixBeforeChar (c : Char) (l : List Char) : List Char :=
  l.takeWhile (fun x => if x = c then false else true)

/-- Specification-side formulation: the segment of a character list strictly
between the first occurrence of `c` and the following occurrence (up to the
end when there is no second occurrence). -/
def segmentAfterChar (c : Char) (l : List Char) : List Char :=
  ((l.dropWhile (fun x => if x = c then false else true)).tail).takeWhile
    (fun x => if x = c then false else true)

/-- The state update performed by an enabled `info`/`warn`/`error` call:
append the record to the sinks and set `MESSAGES_GENERATED`. -/
def GState.withMessage (st : GState) (lvl : Level) (fmt : String) (ecode : PyVal) : GState :=
  { st with output := st.output ++ [{ level := lvl, fmt := fmt, ecode := ecode }],
            messages_generated := true }

/-! ### Lemmas about the Python split -/

theorem py_split_list_ne_nil (c : Char) (l : List Char) : py_split_list c l ≠ [] := by
  cases l with
  | nil => simp [py_split_list]
  | cons x xs =>
    simp only [py_split_list]
    split <;> simp

theorem py_split_list_headD (c : Char) (l : List Char) :
    (py_split_list c l).headD [] = prefixBeforeChar c l := by
  induction l with
  | nil => rfl
  | cons x xs ih =>
    by_cases h : x = c
    · simp [py_split_list, prefixBeforeChar, List.takeWhile_cons, h]
    · simp only [py_split_list, prefixBeforeChar, List.takeWhile_cons, if_neg h, List.headD_cons]
      exact congrArg (x :: ·) ih

theorem py_split_list_get_one (c : Char) (l : List Char) :
    (py_split_list c l).get? 1 =
      if c ∈ l then some (segmentAfterChar c l) else Option.none := by
  induction l with
  | nil => rfl
  | cons x xs ih =>
    by_cases h : x = c
    · subst h
      have hsplit : py_split_list x (x :: xs) = [] :: py_split_list x xs := by
        simp [py_split_list]
      rw [hsplit]
      have h0 : (py_split_list x xs).get? 0 = some ((py_split_list x xs).headD []) := by
        cases hr : py_split_list x xs with
        | nil => exact absurd hr (py_split_list_ne_nil x xs)
        | cons a as => rfl
      have hget : ([] :: py_split_list x xs).get? 1 = (py_split_list x xs).get? 0 := rfl
      rw [hget, h0, py_split_list_headD, if_pos (List.mem_cons_self x xs)]
      congr 1
      simp [segmentAfterChar, List.dropWhile_cons, prefixBeforeChar]
    · have hne := py_split_list_ne_nil c xs
      have hstep : (py_split_list c (x :: xs)).get? 1 = (py_split_list c xs).get? 1 := by
        simp only [py_split_list, if_neg h]
        cases hr : py_split_list c xs with
        | nil => exact absurd hr hne
        | cons a as => rfl
      rw [hstep, ih]
      have hseg : segmentAfterChar c (x :: xs) = segmentAfterChar c xs := by
        simp [segmentAfterChar, List.dropWhile_cons, h]
      by_cases hm : c ∈ xs
      · rw [if_pos hm, if_pos (List.mem_cons_of_mem x hm), hseg]
      · rw [if_neg hm, if_neg ?_]
        intro hcon
        rcases List.mem_cons.mp hcon with hcx | hm2
        · exact h hcx.symm
        · exact hm hm2

/-! ### Gating over constructed options -/

theorem msg_id_enabled_of_lists (o : ElevatorOptions) (dl el : List String)
    (hd : o.disabled = .strList dl) (he : o.enabled = .strList el) (mid : PyVal) :
    msg_id_enabled (some o) mid =
      .ok (if truthy o.silent then false
           else if dl ≠ [] then decide (text_type mid ∉ dl)
           else decide (text_type mid ∈ el)) := by
  have h2 : get_option_value (some o) "disabled" = o.disabled := rfl
  have h3 : get_option_value (some o) "enabled" = o.enabled := rfl
  have h1 : get_option_value (some o) "silent" = o.silent := rfl
  simp only [msg_id_enabled, h1, h2, h3, hd, he]
  cases hs : truthy o.silent with
  | true => simp
  | false =>
    by_cases hdl : dl = []
    · subst hdl
      simp [truthy, pyIn]
    · simp [truthy, pyIn, hdl, decide_not]

/-! ### Claim theorems -/

/-- C1: for every constructed options value and every message code, the gating
decision `msg_id_enabled` first coerces the code to its string form; then, if
`silent` is truthy it returns false unconditionally; otherwise if the derived
`disabled` list is non-empty it returns true iff the string form is absent
from it (the `enabled` list is not consulted, so — second conjunct — a code
present in both the enable and the disable list is disabled); otherwise it
returns true iff the string form is in the `enabled` list. -/
theorem gating_decision_matches_spec :
    (∀ (cmd : Option Namespace) (kw : Kwargs) (mid : PyVal),
       msg_id_enabled (some (ElevatorOptions.init cmd kw)) mid =
         .ok (if truthy (ElevatorOptions.init cmd kw).silent then false
              else if (ElevatorOptions.init cmd kw).disabledStrings ≠ [] then
                decide (text_type mid ∉ (ElevatorOptions.init cmd kw).disabledStrings)
              else decide (text_type mid ∈ (ElevatorOptions.init cmd kw).enabledStrings))) ∧
    msg_id_enabled (some (ElevatorOptions.init Option.none
        { defaultKwargs with enable := "207", disable := "207" })) (.int 207) = .ok false := by
  constructor
  · intro cmd kw mid
    exact msg_id_enabled_of_lists (ElevatorOptions.init cmd kw) _ _ rfl rfl mid
  · rfl

/-- C2: with no explicit enable list (empty enable string) the derived
`enabled` list is the entire message catalog as strings, and after default
construction `msg_id_enabled` is true for every code of the catalog. -/
theorem enabled_defaults_to_full_catalog :
    (∀ (cmd : Option Namespace) (kw : Kwargs),
       (match cmd with | some ns => ns.enable | Option.none => kw.enable) = "" →
       (ElevatorOptions.init cmd kw).enabled =
         .strList (CHECK_CODES.map (fun x => text_type (.int x)))) ∧
    (∀ c : Int, c ∈ CHECK_CODES →
       msg_id_enabled (some (ElevatorOptions.init Option.none defaultKwargs)) (.int c) =
         .ok true) := by
  constructor
  · intro cmd kw h
    show PyVal.strList (derivedEnabled _) = _
    rw [derivedEnabled, if_neg (by simp [h])]
  · intro c hc
    rw [msg_id_enabled_of_lists (ElevatorOptions.init Option.none defaultKwargs)
          [] (CHECK_CODES.map (fun x => text_type (.int x))) rfl rfl (.int c)]
    simp only [ne_eq, not_true_eq_false, if_false]
    have hsil : truthy (ElevatorOptions.init Option.none defaultKwargs).silent = false := rfl
    rw [hsil]
    simp only [if_false, Except.ok.injEq]
    exact decide_eq_true (List.mem_map_of_mem (fun x => text_type (.int x)) hc)

/-- C2 witness: the default-constructed `enabled` list is the full catalog and
code 201 (a catalog member) is enabled by default. -/
theorem enabled_defaults_to_full_catalog_witness :
    (ElevatorOptions.init Option.none defaultKwargs).enabled =
      .strList (CHECK_CODES.map (fun x => text_type (.int x))) ∧
    (201 : Int) ∈ CHECK_CODES ∧
    msg_id_enabled (some (ElevatorOptions.init Option.none defaultKwargs)) (.int 201) =
      .ok true :=
  ⟨enabled_defaults_to_full_catalog.1 Option.none defaultKwargs rfl, by decide,
   enabled_defaults_to_full_catalog.2 201 (by decide)⟩

/-- C3 (code bug): calling `set_option_value` before any options state exists
does not produce the promised code-207 diagnostic — the `error(..., 207)` call
itself evaluates a membership test in the absent `enabled` value and raises a
`TypeError`, so a hard exception propagates instead of a logged error. -/
theorem set_option_value_uninitialized_raises (name : String) (v : PyVal) :
    set_option_value initialState name v =
      .error "TypeError: argument of type NoneType is not iterable" := rfl

/-- C5: `initialize_options` is idempotent — when an options state already
exists, a later call with any arguments returns the state unchanged in every
field and raises no error. -/
theorem initialize_options_idempotent (st : GState) (o : ElevatorOptions)
    (args : Option Namespace) (h : st.all_options = some o) :
    initialize_options st args = .ok st := by
  rw [initialize_options, h]
  rfl

/-- A parsed-arguments value that differs from the defaults in many fields,
used to exercise the idempotence guard with different second-call arguments. -/
def nsAlternate : Namespace :=
  { file_ := some (.str "/tmp/other.json")
    incidents := true
    no_squirrel_gaps := true
    infrastructure := true
    package_created_by_id := .str "identity--x"
    default_timestamp := .str "2016-01-01T00:00:00Z"
    validator_args := ""
    enable := "201"
    disable := "202"
    silent := true
    policy := "strict"
    message_log_directory := .str "/tmp/logs"
    log_level := "DEBUG"
    markings_allowed := "red"
    output_directory := some (.str "/tmp/out") }

/-- C5 witness: after a default initialization, a second call with different
arguments returns the first-constructed state unchanged. -/
theorem initialize_options_idempotent_witness :
    initialize_options
      { all_options := some (ElevatorOptions.init Option.none defaultKwargs),
        messages_generated := false, output := [] } (some nsAlternate) =
      .ok { all_options := some (ElevatorOptions.init Option.none defaultKwargs),
            messages_generated := false, output := [] } :=
  initialize_options_idempotent _ (ElevatorOptions.init Option.none defaultKwargs)
    (some nsAlternate) rfl

/-- A parsed-arguments value with `silent` set and a message-log directory set
(the configuration the code-209 warning is about). -/
def nsSilentLog : Namespace :=
  { file_ := Option.none
    incidents := false
    no_squirrel_gaps := false
    infrastructure := false
    package_created_by_id := .none
    default_timestamp := .none
    validator_args := "--strict-types"
    enable := ""
    disable := ""
    silent := true
    policy := "no_policy"
    message_log_directory := .str "/tmp/logs"
    log_level := "INFO"
    markings_allowed := ""
    output_directory := Option.none }

/-- A parsed-arguments value with `silent` set and a non-default policy (the
configuration the code-211 warning is about). -/
def nsSilentPolicy : Namespace :=
  { nsSilentLog with message_log_directory := .none, policy := "strict" }

/-- C4 (code bug): on both configurations the spec says a warning (code 209,
resp. 211) is emitted, `initialize_options` does call `warn` — but only under
conditions that require `silent` to be truthy, and `msg_id_enabled` returns
false whenever `silent` is truthy, so the warnings are gated off: the
resulting state has an empty output stream and `MESSAGES_GENERATED` still
false, although the triggering conditions demonstrably hold. -/
theorem silent_config_warnings_not_emitted :
    (initialize_options initialState (some nsSilentLog) =
       .ok { all_options := some (ElevatorOptions.init (some nsSilentLog) defaultKwargs),
             messages_generated := false, output := [] } ∧
     truthy (ElevatorOptions.init (some nsSilentLog) defaultKwargs).silent = true ∧
     truthy (ElevatorOptions.init (some nsSilentLog) defaultKwargs).message_log_directory =
       true) ∧
    (initialize_options initialState (some nsSilentPolicy) =
       .ok { all_options := some (ElevatorOptions.init (some nsSilentPolicy) defaultKwargs),
             messages_generated := false, output := [] } ∧
     truthy (ElevatorOptions.init (some nsSilentPolicy) defaultKwargs).silent = true ∧
     (ElevatorOptions.init (some nsSilentPolicy) defaultKwargs).policy ≠
       .str "no_policy") :=
  ⟨⟨rfl, rfl, rfl⟩, ⟨rfl, rfl, by decide⟩⟩

/-- The state after construction with `disable="207,209"` and nothing emitted
yet (the scenario of the spec). -/
def disabledScenarioState : GState :=
  { all_options :=
      some (ElevatorOptions.init Option.none { defaultKwargs with disable := "207,209" }),
    messages_generated := false, output := [] }

/-- C6: for each router entry point, when the gating decision is enabled the
message is appended to the sinks and `MESSAGES_GENERATED` becomes true; when
it is disabled the call returns the state unchanged, with no exception. The
final conjuncts are the spec scenario: with `disable="207,209"`, an
`error(..., 207)` is a complete no-op while a `warn(..., 210)` emits and sets
the flag. -/
theorem diagnostic_router_frame :
    (∀ (st : GState) (fmt : String) (ecode : PyVal),
       msg_id_enabled st.all_options ecode = .ok true →
       info st fmt ecode = .ok (st.withMessage .info fmt ecode) ∧
       warn st fmt ecode = .ok (st.withMessage .warning fmt ecode) ∧
       error st fmt ecode = .ok (st.withMessage .error fmt ecode)) ∧
    (∀ (st : GState) (fmt : String) (ecode : PyVal),
       msg_id_enabled st.all_options ecode = .ok false →
       info st fmt ecode = .ok st ∧ warn st fmt ecode = .ok st ∧
       error st fmt ecode = .ok st) ∧
    error disabledScenarioState "dropped message" (.int 207) = .ok disabledScenarioState ∧
    warn disabledScenarioState "emitted message" (.int 210) =
      .ok (disabledScenarioState.withMessage .warning "emitted message" (.int 210)) := by
  refine ⟨?_, ?_, rfl, rfl⟩
  · intro st fmt ecode h
    rw [info, warn, error, log_call, log_call, log_call, h]
    exact ⟨rfl, rfl, rfl⟩
  · intro st fmt ecode h
    rw [info, warn, error, log_call, log_call, log_call, h]
    exact ⟨rfl, rfl, rfl⟩

/-- C6 witness: at the scenario state, code 202 is enabled and emitting it
appends the record and sets the flag, while code 207 is disabled and the call
leaves the state unchanged. -/
theorem diagnostic_router_frame_witness :
    info disabledScenarioState "msg" (.int 202) =
      .ok (disabledScenarioState.withMessage .info "msg" (.int 202)) ∧
    info disabledScenarioState "msg" (.int 207) = .ok disabledScenarioState :=
  ⟨(diagnostic_router_frame.1 disabledScenarioState "msg" (.int 202) rfl).1,
   (diagnostic_router_frame.2.1 disabledScenarioState "msg" (.int 207) rfl).1⟩

/-- Options constructed with an input file path and a message-log directory. -/
def mkFileOpts (dir f : String) : ElevatorOptions :=
  ElevatorOptions.init Option.none
    { defaultKwargs with file_ := .str f, message_log_directory := .str dir }

/-- Options constructed with a message-log directory but no input file. -/
def mkNoFileOpts (dir : String) : ElevatorOptions :=
  ElevatorOptions.init Option.none { defaultKwargs with message_log_directory := .str dir }

/-- C7 counterexample: for `file_="/tmp/my.report.json"` the destination is
`/tmp/logs/my.log`, not `/tmp/logs/my.report.log` as "base name with its
extension stripped" prescribes; and for no input file and package id
`"a:b:c"` the destination is `/tmp/logs/b.log`, not `/tmp/logs/b:c.log` as
"the portion after its first colon" prescribes. -/
theorem log_filename_derivation_counterexample :
    setup_logger (some (mkFileOpts "/tmp/logs" "/tmp/my.report.json")) "bundle--abc" =
      .ok (.fileSink (.str "INFO") "/tmp/logs/my.log") ∧
    "/tmp/logs/my.log" ≠ "/tmp/logs/my.report.log" ∧
    setup_logger (some (mkNoFileOpts "/tmp/logs")) "a:b:c" =
      .ok (.fileSink (.str "INFO") "/tmp/logs/b.log") ∧
    "/tmp/logs/b.log" ≠ "/tmp/logs/b:c.log" :=
  ⟨rfl, by decide, rfl, by decide⟩

/-- C7 amended: with a non-empty input file path the log file name is the part
of the path's base name before its FIRST dot with `.log` appended; with no
input file it is the segment of the package id between its first and second
colon (element 1 of the colon split) with `.log` appended; in particular for
`file_="/tmp/report.json"` and directory `/tmp/logs` the destination is
`/tmp/logs/report.log` regardless of the package id. -/
theorem log_filename_derivation_amended :
    (∀ (dir f pid : String), dir ≠ "" → f ≠ "" →
       setup_logger (some (mkFileOpts dir f)) pid =
         .ok (.fileSink (.str "INFO")
           (os_path_abspath (os_path_join dir
             (String.mk (prefixBeforeChar '.' (os_path_basename f).data) ++ ".log"))))) ∧
    (∀ (dir pid : String), dir ≠ "" → ':' ∈ pid.data →
       setup_logger (some (mkNoFileOpts dir)) pid =
         .ok (.fileSink (.str "INFO")
           (os_path_abspath (os_path_join dir
             (String.mk (segmentAfterChar ':' pid.data) ++ ".log"))))) ∧
    (∀ pid : String,
       setup_logger (some (mkFileOpts "/tmp/logs" "/tmp/report.json")) pid =
         .ok (.fileSink (.str "INFO") "/tmp/logs/report.log")) := by
  refine ⟨?_, ?_, fun pid => rfl⟩
  · intro dir f pid hdir hf
    have hm : get_option_value (some (mkFileOpts dir f)) "message_log_directory" =
        .str dir := rfl
    have hfile : get_option_value (some (mkFileOpts dir f)) "file_" = .str f := rfl
    have hl : get_option_value (some (mkFileOpts dir f)) "log_level" = .str "INFO" := rfl
    have hdirt : truthy (PyVal.str dir) = true := by simp [truthy, hdir]
    have hft : truthy (PyVal.str f) = true := by simp [truthy, hf]
    simp only [setup_logger, hm, hfile, hl, hdirt, hft, py_split_list_headD]
    simp
  · intro dir pid hdir hcolon
    have hm : get_option_value (some (mkNoFileOpts dir)) "message_log_directory" =
        .str dir := rfl
    have hfile : get_option_value (some (mkNoFileOpts dir)) "file_" = .none := rfl
    have hl : get_option_value (some (mkNoFileOpts dir)) "log_level" = .str "INFO" := rfl
    have hdirt : truthy (PyVal.str dir) = true := by simp [truthy, hdir]
    simp only [setup_logger, hm, hfile, hl, hdirt, py_split_list_get_one, if_pos hcolon]
    simp [truthy]

/-- C7 witness: the amended file-path rule applied at the spec scenario input. -/
theorem log_filename_derivation_amended_witness :
    setup_logger (some (mkFileOpts "/tmp/logs" "/tmp/report.json")) "bundle--abc" =
      .ok (.fileSink (.str "INFO")
        (os_path_abspath (os_path_join "/tmp/logs"
          (String.mk (prefixBeforeChar '.' (os_path_basename "/tmp/report.json").data) ++
            ".log")))) :=
  log_filename_derivation_amended.1 "/tmp/logs" "/tmp/report.json" "bundle--abc"
    (by decide) (by decide)

/-- C8 counterexample: with the default (empty) `markings_allowed` string the
attribute after construction is still the empty string, not an empty list. -/
theorem markings_empty_not_list :
    (ElevatorOptions.init Option.none defaultKwargs).markings_allowed = .str "" ∧
    PyVal.str "" ≠ .strList [] :=
  ⟨rfl, by decide⟩

/-- C8 amended: a non-empty `markings_allowed` string is stored as the ordered
comma-split list (so `"red,amber"` becomes `["red", "amber"]`), while the
empty string is left unchanged as the empty string (it is not turned into a
list). -/
theorem markings_split_amended :
    (∀ (kw : Kwargs) (s : String), s ≠ "" →
       (ElevatorOptions.init Option.none
           { kw with markings_allowed := s }).markings_allowed =
         .strList (py_split ',' s)) ∧
    (∀ kw : Kwargs,
       (ElevatorOptions.init Option.none
           { kw with markings_allowed := "" }).markings_allowed = .str "") ∧
    (ElevatorOptions.init Option.none
        { defaultKwargs with markings_allowed := "red,amber" }).markings_allowed =
      .strList ["red", "amber"] := by
  refine ⟨?_, fun kw => rfl, rfl⟩
  intro kw s h
  show derivedMarkings (.str s) = _
  rw [derivedMarkings, if_pos (by simp [truthy, h])]

/-- C8 witness: the amended split rule applied at the spec scenario input. -/
theorem markings_split_amended_witness :
    (ElevatorOptions.init Option.none
        { defaultKwargs with markings_allowed := "red,amber" }).markings_allowed =
      .strList (py_split ',' "red,amber") :=
  markings_split_amended.1 defaultKwargs "red,amber" (by decide)

/-- C10: with a message-log directory configured and a falsy input file, a
package identifier with no colon makes `setup_logger` raise `IndexError`:
element 1 of the colon split does not exist. -/
theorem colonless_package_id_index_error (dir pid : String) (fv : PyVal)
    (hdir : dir ≠ "") (hf : truthy fv = false) (hc : ':' ∉ pid.data) :
    setup_logger (some (ElevatorOptions.init Option.none
        { defaultKwargs with file_ := fv, message_log_directory := .str dir })) pid =
      .error "IndexError: list index out of range" := by
  have hm : get_option_value (some (ElevatorOptions.init Option.none
      { defaultKwargs with file_ := fv, message_log_directory := .str dir }))
      "message_log_directory" = .str dir := rfl
  have hfile : get_option_value (some (ElevatorOptions.init Option.none
      { defaultKwargs with file_ := fv, message_log_directory := .str dir }))
      "file_" = fv := rfl
  have hdirt : truthy (PyVal.str dir) = true := by simp [truthy, hdir]
  simp only [setup_logger, hm, hfile, hdirt, py_split_list_get_one, if_neg hc]
  rw [hf]
  simp

/-- C10 witness: the colonless package id `bundle--abc` with no input file and
directory `/tmp/logs` raises the index error. -/
theorem colonless_package_id_index_error_witness :
    setup_logger (some (ElevatorOptions.init Option.none
        { defaultKwargs with file_ := PyVal.none,
                             message_log_directory := .str "/tmp/logs" })) "bundle--abc" =
      .error "IndexError: list index out of range" :=
  colonless_package_id_index_error "/tmp/logs" "bundle--abc" .none (by decide) rfl
    (by decide)

/-- C9: calling `info`, `warn` or `error` while `ALL_OPTIONS` is the absence
value raises a `TypeError` instead of acting as a no-op: `silent` and
`disabled` read as absent (falsy), and the membership test of the code in the
absent `enabled` value is a test in a non-container. -/
theorem logging_uninitialized_raises (st : GState) (h : st.all_options = Option.none)
    (fmt : String) (mid : PyVal) :
    info st fmt mid = .error "TypeError: argument of type NoneType is not iterable" ∧
    warn st fmt mid = .error "TypeError: argument of type NoneType is not iterable" ∧
    error st fmt mid = .error "TypeError: argument of type NoneType is not iterable" := by
  rw [info, warn, error, log_call, log_call, log_call, h]
  exact ⟨rfl, rfl, rfl⟩

/-- C9 witness: at the module-load state, each router entry point raises on a
concrete code. -/
theorem logging_uninitialized_raises_witness :
    info initialState "msg" (.int 210) =
      .error "TypeError: argument of type NoneType is not iterable" ∧
    warn initialState "msg" (.int 210) =
      .error "TypeError: argument of type NoneType is not iterable" ∧
    error initialState "msg" (.int 210) =
      .error "TypeError: argument of type NoneType is not iterable" :=
  logging_uninitialized_raises initialState rfl "msg" (.int 210)

end Elevator
